import Mathlib

/-!
Verification development for the Tao-dividends service: a shallow embedding
of the dividend cache-aside retrieval path (src/blockchain/service.py,
src/blockchain/client.py, src/cache/redis.py), the sentiment scoring and
trading pipeline (src/sentiment/service.py, src/tasks/blockchain_tasks.py)
and the admission-control branch of the HTTP endpoint
(src/api/v1/endpoints/tao_dividends.py).

Conventions of the embedding:
- Python floats are modelled as rationals (Rat).
- Fallible external calls (chain RPC, HTTP APIs, broker) are oracles of type
  Except String _, where the error value stands for the raised exception's
  message.
- JSON payloads are modelled by an inductive Json value; a cache cell that
  json.loads rejects is modelled by the CachedPayload.garbage constructor.
-/

/-- JSON values as produced by json.dumps of a pydantic model_dump and
consumed by json.loads on the cache-hit path. -/
inductive Json where
  | null : Json
  | bool (b : Bool) : Json
  | int (n : Int) : Json
  | str (s : String) : Json
  | arr (xs : List Json) : Json
  | obj (kvs : List (String × Json)) : Json

/-- Model of src/blockchain/schemas.py TaoDividend: fields netuid, hotkey,
dividend, cached (default False), stake_tx_triggered (default False),
tx_hash (default None). -/
structure TaoDividend where
  netuid : Int
  hotkey : String
  dividend : Int
  cached : Bool := false
  stake_tx_triggered : Bool := false
  tx_hash : Option String := none
deriving Repr, DecidableEq

/-- Model of src/blockchain/schemas.py TaoDividendsBatch: fields dividends
(default empty list), cached (default False), stake_tx_triggered
(default False). -/
structure TaoDividendsBatch where
  dividends : List TaoDividend := []
  cached : Bool := false
  stake_tx_triggered : Bool := false
deriving Repr, DecidableEq

/-- Return type of BlockchainService.get_tao_dividends: a single record or a
batch (Union[TaoDividend, TaoDividendsBatch]). -/
inductive DividendResult where
  | single (d : TaoDividend) : DividendResult
  | batch (b : TaoDividendsBatch) : DividendResult
deriving Repr, DecidableEq

/-- model_dump of a TaoDividend, in field declaration order
(src/cache/redis.py set_object serializes value.model_dump()). -/
def dumpDividend (d : TaoDividend) : Json :=
  .obj [("netuid", .int d.netuid),
        ("hotkey", .str d.hotkey),
        ("dividend", .int d.dividend),
        ("cached", .bool d.cached),
        ("stake_tx_triggered", .bool d.stake_tx_triggered),
        ("tx_hash", match d.tx_hash with | some h => .str h | none => .null)]

/-- model_dump of a TaoDividendsBatch, in field declaration order. -/
def dumpBatch (b : TaoDividendsBatch) : Json :=
  .obj [("dividends", .arr (b.dividends.map dumpDividend)),
        ("cached", .bool b.cached),
        ("stake_tx_triggered", .bool b.stake_tx_triggered)]

/-- Lookup of a key in a JSON object's association list (dict access). -/
def lookupKey (kvs : List (String × Json)) (k : String) : Option Json :=
  (kvs.find? (fun kv => kv.fst == k)).map (fun kv => kv.snd)

/-- Substring test, modelling the Python expression needle in haystack on
strings. -/
def strContains (hay needle : String) : Bool :=
  (List.range (hay.length + 1)).any
    (fun i => needle.data.isPrefixOf (hay.data.drop i))

/-- Python membership test key in data as used on line 57 of
src/blockchain/service.py. For a dict it tests key membership, for a list it
compares elements, for a string it is a substring test; on other values it
raises TypeError, modelled as none. -/
def pyIn (key : String) : Json → Option Bool
  | .obj kvs => some (kvs.any (fun kv => kv.fst == key))
  | .arr xs => some (xs.any (fun x => match x with
      | .str s => s == key
      | _ => false))
  | .str s => some (strContains s key)
  | _ => none

/-- Read an optional Bool field with a pydantic default: absent key gives the
default, a present non-Bool value fails validation. -/
def optBoolField (kvs : List (String × Json)) (k : String) (dflt : Bool) :
    Option Bool :=
  match lookupKey kvs k with
  | none => some dflt
  | some (.bool b) => some b
  | some _ => none

/-- TaoDividend.model_validate on a JSON value: requires a dict with integer
netuid, string hotkey, integer dividend; cached and stake_tx_triggered
default to false, tx_hash defaults to none and accepts null or a string.
Extra keys are ignored; any other shape fails. -/
def validateDividend : Json → Option TaoDividend
  | .obj kvs => do
      let n ← match lookupKey kvs "netuid" with
        | some (.int v) => some v
        | _ => none
      let h ← match lookupKey kvs "hotkey" with
        | some (.str v) => some v
        | _ => none
      let dv ← match lookupKey kvs "dividend" with
        | some (.int v) => some v
        | _ => none
      let c ← optBoolField kvs "cached" false
      let st ← optBoolField kvs "stake_tx_triggered" false
      let tx ← match lookupKey kvs "tx_hash" with
        | none => some none
        | some .null => some none
        | some (.str v) => some (some v)
        | some _ => none
      some ⟨n, h, dv, c, st, tx⟩
  | _ => none

/-- Element-wise validation of a JSON list into TaoDividend values; fails if
any element fails. -/
def validateDividendList : List Json → Option (List TaoDividend)
  | [] => some []
  | x :: xs => do
      let d ← validateDividend x
      let ds ← validateDividendList xs
      some (d :: ds)

/-- TaoDividendsBatch.model_validate on a JSON value: dividends defaults to
the empty list and must otherwise be a list of valid TaoDividend dicts;
cached and stake_tx_triggered default to false. -/
def validateBatch : Json → Option TaoDividendsBatch
  | .obj kvs => do
      let ds ← match lookupKey kvs "dividends" with
        | none => some []
        | some (.arr xs) => validateDividendList xs
        | some _ => none
      let c ← optBoolField kvs "cached" false
      let st ← optBoolField kvs "stake_tx_triggered" false
      some ⟨ds, c, st⟩
  | _ => none

/-- Cache-hit deserialization of src/blockchain/service.py lines 54-64:
discriminate by presence of a "dividends" key, then model_validate into the
matching schema. none models any exception on this path (TypeError from the
membership test or a pydantic ValidationError), which the caller treats as a
miss. -/
def parseCached (j : Json) : Option DividendResult :=
  match pyIn "dividends" j with
  | none => none
  | some true => (validateBatch j).map DividendResult.batch
  | some false => (validateDividend j).map DividendResult.single

/-- A raw cache cell: either a JSON value (json.loads succeeded) or garbage
text that json.loads rejects. -/
inductive CachedPayload where
  | json (j : Json) : CachedPayload
  | garbage (s : String) : CachedPayload

/-- Deserialize a raw cache cell; garbage always fails, like the json.loads
exception caught on the hit path. -/
def readCachedPayload : CachedPayload → Option DividendResult
  | .json j => parseCached j
  | .garbage _ => none

/-- Result of the blockchain client's get_tao_dividends
(Union[TaoDividend, list[TaoDividend]]). -/
inductive ClientResult where
  | one (d : TaoDividend) : ClientResult
  | many (ds : List TaoDividend) : ClientResult
deriving Repr, DecidableEq

/-- Instrumented return of BlockchainService.get_tao_dividends: the value
returned to the caller, the number of Source Adapter (blockchain client)
calls issued, the payload written to the cache, and the dividends recorded
as history rows. -/
structure ServiceReturn where
  result : DividendResult
  sourceCalls : Nat
  cacheWrite : Option CachedPayload
  historyWrites : List TaoDividend

/-- Miss branch of src/blockchain/service.py lines 69-95: call the client,
cache the result with set_object, record history rows when a repository is
available, and wrap a raised client fault into BlockchainError. -/
def fetchFromSource (source : Except String ClientResult) (hasRepo : Bool) :
    Except String ServiceReturn :=
  match source with
  | .error e => .error ("Failed to get Tao dividends: " ++ e)
  | .ok (.many ds) =>
      let batch : TaoDividendsBatch := { dividends := ds }
      .ok ⟨.batch batch, 1, some (.json (dumpBatch batch)),
           if hasRepo then ds else []⟩
  | .ok (.one d) =>
      .ok ⟨.single d, 1, some (.json (dumpDividend d)),
           if hasRepo then [d] else []⟩

/-- BlockchainService.get_tao_dividends (src/blockchain/service.py lines
44-95), with the Redis read and the client call supplied as oracles. A
present cache cell that deserializes is returned with cached set to true and
no source call and no history write; a missing or undeserializable cell
falls through to the source. -/
def serviceGetTaoDividends (cached : Option CachedPayload)
    (source : Except String ClientResult) (hasRepo : Bool) :
    Except String ServiceReturn :=
  match cached with
  | some payload =>
      match readCachedPayload payload with
      | some (.batch b) => .ok ⟨.batch { b with cached := true }, 0, none, []⟩
      | some (.single d) => .ok ⟨.single { d with cached := true }, 0, none, []⟩
      | none => fetchFromSource source hasRepo
  | none => fetchFromSource source hasRepo

/-- Set the cached flag of a result, as the hit path does. -/
def setResultCached : DividendResult → Bool → DividendResult
  | .single d, b => .single { d with cached := b }
  | .batch bt, b => .batch { bt with cached := b }

/-- The cached flag of a result. -/
def resultCached : DividendResult → Bool
  | .single d => d.cached
  | .batch b => b.cached

/-- The value the service builds from a client result on the miss path. -/
def clientToResult : ClientResult → DividendResult
  | .one d => .single d
  | .many ds => .batch { dividends := ds }

/-- Inner async-for of BitensorClient.get_tao_dividends (src/blockchain/
client.py lines 149-170) over the rows of one netuid's dividend map: keep a
row when no hotkey filter is set or the decoded key equals the filter, and
break after the first kept row when a hotkey was specified. -/
def collectRows (n : Int) (hotkey' : Option String) :
    List (String × Int) → List TaoDividend
  | [] => []
  | (k, v) :: rest =>
      if hotkey'.isNone ∨ hotkey' = some k then
        ⟨n, k, v, false, false, none⟩ ::
          (if hotkey'.isSome then [] else collectRows n hotkey' rest)
      else
        collectRows n hotkey' rest

/-- BitensorClient.get_tao_dividends (src/blockchain/client.py lines
119-196) after a successful connect. chain models subtensor.query_map per
netuid: none stands for a missing map or a per-netuid fault, both of which
the code skips. Lines 123-124 replace absent netuid and hotkey with the
configured defaults before the netuids list is built, so the all-topics
branch (range 1..20) and the no-hotkey-filter branch are unreachable; the
embedding keeps them as written. -/
def clientGetTaoDividends (defaultNetuid : Int) (defaultHotkey : String)
    (chain : Int → Option (List (String × Int)))
    (netuid : Option Int) (hotkey : Option String) : ClientResult :=
  let netuid' : Option Int := some (netuid.getD defaultNetuid)
  let hotkey' : Option String := some (hotkey.getD defaultHotkey)
  let netuids : List Int :=
    match netuid' with
    | some n => [n]
    | none => (List.range 20).map (fun i => (i : Int) + 1)
  let dividends : List TaoDividend :=
    netuids.foldl (fun acc n =>
      match chain n with
      | none => acc
      | some rows => acc ++ collectRows n hotkey' rows) []
  match dividends with
  | [] =>
      match hotkey' with
      | some hk => .one ⟨netuid'.getD defaultNetuid, hk, 0, false, false, none⟩
      | none => .many []
  | [d] => if hotkey'.isSome then .one d else .many [d]
  | ds => .many ds

/-- Digits of a decimal literal to a number; none when empty or when a
non-digit character appears. -/
def digitsToNatAux : List Char → Nat → Option Nat
  | [], acc => some acc
  | c :: cs, acc =>
      if c.isDigit then digitsToNatAux cs (acc * 10 + (c.toNat - 48))
      else none

/-- Strict all-digit parse of a character list. -/
def digitsToNat : List Char → Option Nat
  | [] => none
  | cs => digitsToNatAux cs 0

/-- Python int(s) on a string: strips surrounding whitespace, accepts an
optional sign followed by digits, raises ValueError (none) otherwise.
Underscore digit separators are not modelled. -/
def pyInt (s : String) : Option Int :=
  match s.trim.data with
  | '-' :: cs => (digitsToNat cs).map (fun n => -(n : Int))
  | '+' :: cs => (digitsToNat cs).map (fun n => (n : Int))
  | cs => (digitsToNat cs).map (fun n => (n : Int))

/-- Score extraction of SentimentAnalysisService.analyze_sentiment
(src/sentiment/service.py lines 260-268): int(completion) clamped into
[-100, 100] by max(-100, min(100, score)); a ValueError yields 0. -/
def parseScoreCompletion (completion : String) : Int :=
  match pyInt completion with
  | some n => max (-100) (min 100 n)
  | none => 0

/-- Decision rule of src/sentiment/service.py lines 271-275. -/
def decideOp (score : Int) : String :=
  if 0 < score then "stake" else if score < 0 then "unstake" else "none"

/-- Suggested trade amount of src/sentiment/service.py line 276:
abs(score) * 0.01 when the score is nonzero, else 0. -/
def suggestedAmount (score : Int) : Rat :=
  if score ≠ 0 then (score.natAbs : Rat) * (1 / 100) else 0

/-- A social post; only its presence matters to the embedded pipeline (the
text is consumed by prompt construction, which is I/O). -/
structure Tweet where
  text : String
deriving Repr, DecidableEq

/-- Model of src/sentiment/schemas.py SentimentResult. -/
structure SentimentResult where
  netuid : Int
  score : Int
  tweets_count : Nat
  operation_type : String
  stake_amount : Rat
deriving Repr, DecidableEq

/-- SentimentAnalysisService.analyze_sentiment (src/sentiment/service.py
lines 158-298). apiResp is the scorer oracle: the completion content string
on HTTP 200, or the raised fault (ExternalAPIError on non-200 status or a
client error). Zero tweets short-circuit to the neutral result before any
network call. -/
def analyzeSentiment (tweets : List Tweet) (netuid : Int)
    (apiResp : Except String String) : Except String SentimentResult :=
  if tweets.isEmpty then
    .ok ⟨netuid, 0, 0, "none", 0⟩
  else
    match apiResp with
    | .error e => .error e
    | .ok completion =>
        let score := parseScoreCompletion completion
        .ok ⟨netuid, score, tweets.length, decideOp score,
             suggestedAmount score⟩

/-- Model of src/blockchain/schemas.py StakeOperation. -/
structure StakeOperation where
  hotkey : String
  amount : Rat
  operation_type : String
  tx_hash : Option String := none
  success : Bool := false
  error : Option String := none
deriving Repr, DecidableEq

/-- A failed StakeOperation as constructed by the error branches of
BitensorClient.stake and BitensorClient.unstake. -/
def failedOp (hk : String) (amount : Rat) (kind e : String) :
    StakeOperation :=
  { hotkey := hk, amount := amount, operation_type := kind,
    tx_hash := none, success := false, error := some e }

/-- BitensorClient.stake (src/blockchain/client.py lines 207-281). addStake
is the subtensor.add_stake oracle: a raised fault, or the returned Bool.
Every raised fault — duplicate-submission rejections included — lands in the
generic handler of lines 268-281, which records success as false with the
message as error. -/
def stakeCore (amount : Rat) (hotkey : Option String) (_netuid : Option Int)
    (defaultHotkey : String) (addStake : Except String Bool) :
    StakeOperation :=
  let hk := hotkey.getD defaultHotkey
  match addStake with
  | .error e => failedOp hk amount "stake" e
  | .ok false =>
      failedOp hk amount "stake" "Failed to stake: Chain rejected transaction"
  | .ok true =>
      { hotkey := hk, amount := amount, operation_type := "stake",
        tx_hash := some "Transaction submitted", success := true,
        error := none }

/-- Oracles consumed by BitensorClient.unstake: the subnet lookup combined
with tao-to-alpha conversion (may raise), the current-stake lookup (raise,
absent netuid, or the stake), and the unstake extrinsic call. -/
structure UnstakeEnv where
  taoToAlpha : Except String (Rat → Rat)
  stakeInfo : Except String (Option Rat)
  unstakeCall : Except String Bool

/-- BitensorClient.unstake (src/blockchain/client.py lines 283-432). The
alpha-too-low guard compares against 0.001; a fault in the current-stake
lookup is only logged and the flow continues; the final extrinsic call's
raised fault — duplicate-submission rejections included — lands in the
generic handler of lines 419-432, which records success as false with the
message as error. Error message texts are kept descriptive, without the
interpolated values of the source's f-strings. -/
def unstakeCore (amount : Rat) (hotkey : Option String) (_netuid : Option Int)
    (defaultHotkey : String) (env : UnstakeEnv) : StakeOperation :=
  let hk := hotkey.getD defaultHotkey
  match env.taoToAlpha with
  | .error e => failedOp hk amount "unstake" e
  | .ok conv =>
      let alpha := conv amount
      if alpha < 1 / 1000 then
        failedOp hk amount "unstake" "Converted alpha amount is too low"
      else
        let precheck : Option StakeOperation :=
          match env.stakeInfo with
          | .error _ => none
          | .ok none => some (failedOp hk amount "unstake"
              "No stake found for netuid")
          | .ok (some current) =>
              if current < alpha then
                some (failedOp hk amount "unstake" "Not enough stake")
              else none
        match precheck with
        | some op => op
        | none =>
            match env.unstakeCall with
            | .error e => failedOp hk amount "unstake" e
            | .ok false => failedOp hk amount "unstake"
                "Failed to unstake: Chain rejected transaction"
            | .ok true =>
                { hotkey := hk, amount := amount, operation_type := "unstake",
                  tx_hash := some "Transaction submitted", success := true,
                  error := none }

/-- The dict returned by the Celery task body (src/tasks/blockchain_tasks.py):
status, message, the sentiment score, operation and amount keys when present,
and the success flag. -/
structure WorkflowResult where
  status : String
  message : String
  sentiment_score : Option Int
  operation : Option String
  amount : Option Rat
  success : Bool
deriving Repr, DecidableEq

/-- Side-effect counters of one workflow run: stake calls, unstake calls and
StakeTransaction rows written through the repository. -/
structure TradeCounts where
  stakeCalls : Nat
  unstakeCalls : Nat
  txRecords : Nat
deriving Repr, DecidableEq

/-- No trade activity. -/
def noTrade : TradeCounts := ⟨0, 0, 0⟩

/-- Body of trigger_sentiment_analysis_and_stake
(src/tasks/blockchain_tasks.py lines 57-177): fetch tweets, analyze
sentiment, then stake, unstake or skip; every raised fault is caught by the
handler of lines 169-177, which resolves to a status "failed" value, so the
task never raises into its scheduler. service.stake and service.unstake run
with a database session, so each executed trade writes one StakeTransaction
row (src/blockchain/service.py lines 129-135 and 171-177). -/
def processSentimentAndStake (tweets : Except String (List Tweet))
    (scoreResp : Except String String) (addStake : Except String Bool)
    (uenv : UnstakeEnv) (defaultHotkey : String) (defaultNetuid : Int)
    (netuid : Option Int) : WorkflowResult × TradeCounts :=
  let nu := netuid.getD defaultNetuid
  match tweets with
  | .error e =>
      ({ status := "failed",
         message := "Error in sentiment analysis: " ++ e,
         sentiment_score := none, operation := none, amount := none,
         success := false }, noTrade)
  | .ok tws =>
      if tws.isEmpty then
        ({ status := "completed",
           message := "No tweets found for sentiment analysis",
           sentiment_score := some 0, operation := some "none",
           amount := some 0, success := true }, noTrade)
      else
        match analyzeSentiment tws nu scoreResp with
        | .error e =>
            ({ status := "failed",
               message := "Error in sentiment analysis: " ++ e,
               sentiment_score := none, operation := none, amount := none,
               success := false }, noTrade)
        | .ok sr =>
            if sr.operation_type == "none" then
              ({ status := "completed",
                 message := "Neutral sentiment, no action taken",
                 sentiment_score := some sr.score, operation := some "none",
                 amount := some 0, success := true }, noTrade)
            else if sr.operation_type == "stake" then
              let op := stakeCore sr.stake_amount none (some nu)
                defaultHotkey addStake
              ({ status := "completed",
                 message := if op.success then "Successfully staked"
                   else "Failed to stake: " ++ op.error.getD "",
                 sentiment_score := some sr.score, operation := some "stake",
                 amount := some sr.stake_amount, success := op.success },
               ⟨1, 0, 1⟩)
            else
              let op := unstakeCore sr.stake_amount none (some nu)
                defaultHotkey uenv
              ({ status := "completed",
                 message := if op.success then "Successfully unstaked"
                   else "Failed to unstake: " ++ op.error.getD "",
                 sentiment_score := some sr.score,
                 operation := some "unstake",
                 amount := some sr.stake_amount, success := op.success },
               ⟨0, 1, 1⟩)

/-- MAX_CONCURRENT_SENTIMENT_TASKS of
src/api/v1/endpoints/tao_dividends.py line 28. -/
def MAX_CONCURRENT_SENTIMENT_TASKS : Nat := 20

/-- Outcome of the Celery dispatch (the .delay call): dispatched, a broker
connection fault (OperationalError / ConnectionError), or another fault. -/
inductive CeleryOutcome where
  | ok : CeleryOutcome
  | brokerError (msg : String) : CeleryOutcome
  | otherError (msg : String) : CeleryOutcome

/-- Set stake_tx_triggered on a result, on the batch flag and every element,
as the endpoint does on both branches (src/api/v1/endpoints/tao_dividends.py
lines 122-128 and 150-156). -/
def setTriggered : DividendResult → Bool → DividendResult
  | .single d, b => .single { d with stake_tx_triggered := b }
  | .batch bt, b =>
      .batch { bt with
               stake_tx_triggered := b
               dividends := bt.dividends.map
                 (fun d => { d with stake_tx_triggered := b }) }

/-- Instrumented return of the endpoint's trade branch: the response (none
models the raised HTTP 500), how many workflow dispatches were issued, and
the semaphore permits available after the branch. -/
structure TradeBranchReturn where
  response : Option DividendResult
  dispatched : Nat
  semAfter : Nat

/-- Trade branch of the endpoint (src/api/v1/endpoints/tao_dividends.py
lines 112-177) given the dividend result already fetched: when the semaphore
is locked (zero permits) the trigger is skipped and stake_tx_triggered is
set to false; otherwise the permit is taken, the task is dispatched with
.delay, and the permit is released when the async-with block exits — the
permit count after the branch equals the count before it. A broker
connection fault still returns the data with stake_tx_triggered false; any
other dispatch fault raises HTTP 500. -/
def applyTradeBranch (result : DividendResult) (permits : Nat)
    (celery : CeleryOutcome) : TradeBranchReturn :=
  if permits == 0 then
    ⟨some (setTriggered result false), 0, permits⟩
  else
    match celery with
    | .ok => ⟨some (setTriggered result true), 1, permits⟩
    | .brokerError _ => ⟨some (setTriggered result false), 0, permits⟩
    | .otherError _ => ⟨none, 0, permits⟩

/-- Scheduler state: available semaphore permits, workflow instances in
flight on the worker side, and triggers shed by the locked branch. -/
structure SchedState where
  permits : Nat
  inFlight : Nat
  shed : Nat
deriving Repr, DecidableEq

/-- Start state: all permits free, nothing in flight. -/
def initSched : SchedState := ⟨MAX_CONCURRENT_SENTIMENT_TASKS, 0, 0⟩

/-- Events of the admission-control mechanism as implemented: a trigger
arriving on a locked semaphore is shed; a trigger arriving while a permit is
free takes the permit, dispatches the task to the worker and releases the
permit when the async-with block exits (no suspension point lies inside the
block), so the net permit count is unchanged while the dispatched workflow
stays in flight; a workflow finishing on the worker leaves the permits
untouched. -/
inductive SchedStep : SchedState → SchedState → Prop where
  | shedStep (p f s : Nat) : p = 0 →
      SchedStep ⟨p, f, s⟩ ⟨p, f, s + 1⟩
  | dispatchStep (p f s : Nat) : 0 < p →
      SchedStep ⟨p, f, s⟩ ⟨p, f + 1, s⟩
  | finishStep (p f s : Nat) :
      SchedStep ⟨p, f + 1, s⟩ ⟨p, f, s⟩

/-- Projection of one dividend observation: (netuid, hotkey, dividend). -/
def dividendTriple (d : TaoDividend) : Int × String × Int :=
  (d.netuid, d.hotkey, d.dividend)

/-- The dividend observations carried by a result, used to state that a
response transformation preserves the data being served. -/
def resultTriples : DividendResult → List (Int × String × Int)
  | .single d => [dividendTriple d]
  | .batch b => b.dividends.map dividendTriple

/-- Top-level stake_tx_triggered flag of a result. -/
def resultTriggeredFlag : DividendResult → Bool
  | .single d => d.stake_tx_triggered
  | .batch b => b.stake_tx_triggered

/-- A demonstration chain carrying dividend rows for two accounts on every
netuid. -/
def demoChain : Int → Option (List (String × Int)) :=
  fun _ => some [("acctA", 5), ("acctB", 7)]

/-- A demonstration chain whose only dividend row lives on netuid 2. -/
def demoChain2 : Int → Option (List (String × Int)) :=
  fun n => if n == 2 then some [("acctA", 5)] else some []

/-- A benign unstake environment: identity conversion, ample current stake,
extrinsic accepted. -/
def demoUEnv : UnstakeEnv :=
  ⟨.ok (fun x => x), .ok (some 1000), .ok true⟩

theorem validateDividend_dump (d : TaoDividend) :
    validateDividend (dumpDividend d) = some d := by
  cases d with
  | mk n h dv c st tx => cases tx <;> rfl

theorem validateList_dump (ds : List TaoDividend) :
    validateDividendList (ds.map dumpDividend) = some ds := by
  induction ds with
  | nil => rfl
  | cons d rest ih =>
      simp [validateDividendList, validateDividend_dump, ih]

theorem validateBatch_dump (b : TaoDividendsBatch) :
    validateBatch (dumpBatch b) = some b := by
  cases b with
  | mk ds c st =>
      simp [dumpBatch, validateBatch, lookupKey, optBoolField,
        validateList_dump]

theorem pyIn_dumpDividend (d : TaoDividend) :
    pyIn "dividends" (dumpDividend d) = some false := rfl

theorem pyIn_dumpBatch (b : TaoDividendsBatch) :
    pyIn "dividends" (dumpBatch b) = some true := rfl

theorem parseCached_dumpDividend (d : TaoDividend) :
    parseCached (dumpDividend d) = some (.single d) := by
  simp [parseCached, pyIn_dumpDividend, validateDividend_dump]

theorem parseCached_dumpBatch (b : TaoDividendsBatch) :
    parseCached (dumpBatch b) = some (.batch b) := by
  simp [parseCached, pyIn_dumpBatch, validateBatch_dump]

theorem service_hit_single (d : TaoDividend)
    (src : Except String ClientResult) (hasRepo : Bool) :
    serviceGetTaoDividends (some (.json (dumpDividend d))) src hasRepo =
      .ok ⟨.single { d with cached := true }, 0, none, []⟩ := by
  simp [serviceGetTaoDividends, readCachedPayload, parseCached_dumpDividend]

theorem service_hit_batch (b : TaoDividendsBatch)
    (src : Except String ClientResult) (hasRepo : Bool) :
    serviceGetTaoDividends (some (.json (dumpBatch b))) src hasRepo =
      .ok ⟨.batch { b with cached := true }, 0, none, []⟩ := by
  simp [serviceGetTaoDividends, readCachedPayload, parseCached_dumpBatch]

/-- C10: cache serialization round-trips — writing any TaoDividend or
TaoDividendsBatch with set_object and reading it back through the cache-hit
deserialization path yields the original value with cached set to true, and
the discrimination by presence of a "dividends" key never misclassifies,
since only the batch serializes that field. -/
theorem cache_serialization_roundtrip (d : TaoDividend)
    (b : TaoDividendsBatch) (src : Except String ClientResult)
    (hasRepo : Bool) :
    pyIn "dividends" (dumpDividend d) = some false ∧
    pyIn "dividends" (dumpBatch b) = some true ∧
    parseCached (dumpDividend d) = some (.single d) ∧
    parseCached (dumpBatch b) = some (.batch b) ∧
    serviceGetTaoDividends (some (.json (dumpDividend d))) src hasRepo =
      .ok ⟨.single { d with cached := true }, 0, none, []⟩ ∧
    serviceGetTaoDividends (some (.json (dumpBatch b))) src hasRepo =
      .ok ⟨.batch { b with cached := true }, 0, none, []⟩ :=
  ⟨pyIn_dumpDividend d, pyIn_dumpBatch b, parseCached_dumpDividend d,
   parseCached_dumpBatch b, service_hit_single d src hasRepo,
   service_hit_batch b src hasRepo⟩

/-- C1: a second identical get_dividends query issued while the cache entry
written by the first query is present returns the same data marked
cached=true, issues zero Source Adapter calls (the second call's source
oracle src2 is arbitrary and unused) and re-records no history. -/
theorem tao_dividends_second_query_cached (r : ClientResult) (hasRepo : Bool)
    (src2 : Except String ClientResult) :
    ∃ (ret1 : ServiceReturn) (payload : CachedPayload)
      (ret2 : ServiceReturn),
      serviceGetTaoDividends none (.ok r) hasRepo = .ok ret1 ∧
      ret1.cacheWrite = some payload ∧
      serviceGetTaoDividends (some payload) src2 hasRepo = .ok ret2 ∧
      ret2.result = setResultCached ret1.result true ∧
      resultCached ret2.result = true ∧
      ret2.sourceCalls = 0 ∧
      ret2.historyWrites = [] := by
  cases r with
  | one d =>
      exact ⟨⟨.single d, 1, some (.json (dumpDividend d)),
              if hasRepo then [d] else []⟩,
             .json (dumpDividend d),
             ⟨.single { d with cached := true }, 0, none, []⟩,
             rfl, rfl, service_hit_single d src2 hasRepo, rfl, rfl, rfl, rfl⟩
  | many ds =>
      exact ⟨⟨.batch { dividends := ds }, 1,
              some (.json (dumpBatch { dividends := ds })),
              if hasRepo then ds else []⟩,
             .json (dumpBatch { dividends := ds }),
             ⟨.batch { dividends := ds, cached := true }, 0, none, []⟩,
             rfl, rfl, service_hit_batch { dividends := ds } src2 hasRepo,
             rfl, rfl, rfl, rfl⟩

/-- C3: a cache entry that cannot be deserialized is treated as a miss — the
Source Adapter is invoked once and its fresh value is returned. -/
theorem corrupt_cache_treated_as_miss (payload : CachedPayload)
    (h : readCachedPayload payload = none) (r : ClientResult)
    (hasRepo : Bool) :
    ∃ ret : ServiceReturn,
      serviceGetTaoDividends (some payload) (.ok r) hasRepo = .ok ret ∧
      ret.sourceCalls = 1 ∧
      ret.result = clientToResult r := by
  cases r with
  | one d =>
      exact ⟨⟨.single d, 1, some (.json (dumpDividend d)),
              if hasRepo then [d] else []⟩,
             by simp [serviceGetTaoDividends, h, fetchFromSource], rfl, rfl⟩
  | many ds =>
      exact ⟨⟨.batch { dividends := ds }, 1,
              some (.json (dumpBatch { dividends := ds })),
              if hasRepo then ds else []⟩,
             by simp [serviceGetTaoDividends, h, fetchFromSource], rfl, rfl⟩

/-- Witness for corrupt_cache_treated_as_miss at a concrete garbage cell. -/
theorem corrupt_cache_treated_as_miss_witness :
    readCachedPayload (.garbage "not json") = none ∧
    ∃ ret : ServiceReturn,
      serviceGetTaoDividends (some (.garbage "not json"))
        (.ok (.one ⟨18, "acctA", 1000, false, false, none⟩)) true = .ok ret ∧
      ret.sourceCalls = 1 ∧
      ret.result = clientToResult (.one ⟨18, "acctA", 1000, false, false,
        none⟩) :=
  ⟨rfl, corrupt_cache_treated_as_miss (.garbage "not json") rfl
    (.one ⟨18, "acctA", 1000, false, false, none⟩) true⟩

theorem collectRows_eq_nil (n : Int) (hk : String)
    (rows : List (String × Int))
    (h : ∀ kv ∈ rows, kv.fst ≠ hk) :
    collectRows n (some hk) rows = [] := by
  induction rows with
  | nil => rfl
  | cons kv rest ih =>
      obtain ⟨k, v⟩ := kv
      have hk1 : k ≠ hk := by
        have hmem := h (k, v) (by simp)
        simpa using hmem
      have hcond : ¬ ((some hk).isNone = true ∨ some hk = some k) := by
        simp
        exact fun hh => hk1 hh.symm
      simp only [collectRows]
      rw [if_neg hcond]
      exact ih (fun kv2 hkv2 => h kv2 (List.mem_cons_of_mem _ hkv2))

/-- C2: when the source yields no dividend row matching the specified
account on the queried netuid, get_tao_dividends returns a zero-amount
TaoDividend value for that (netuid, hotkey) — never an absence signal or an
error. -/
theorem zero_results_yield_zero_dividend (dn : Int) (dh : String)
    (chain : Int → Option (List (String × Int))) (netuid : Option Int)
    (hk : String)
    (hempty : ∀ rows, chain (netuid.getD dn) = some rows →
      ∀ kv ∈ rows, kv.fst ≠ hk) :
    clientGetTaoDividends dn dh chain netuid (some hk) =
      .one ⟨netuid.getD dn, hk, 0, false, false, none⟩ := by
  cases hc : chain (netuid.getD dn) with
  | none => simp [clientGetTaoDividends, hc]
  | some rows =>
      have hnil := collectRows_eq_nil (netuid.getD dn) hk rows (hempty rows hc)
      simp [clientGetTaoDividends, hc, hnil]

/-- Witness for zero_results_yield_zero_dividend: the chain has a row only
for another account, so the specified account gets a zero-value record. -/
theorem zero_results_yield_zero_dividend_witness :
    clientGetTaoDividends 18 "hkDefault" (fun _ => some [("other", 3)])
      (some 5) (some "acctA") = .one ⟨5, "acctA", 0, false, false, none⟩ :=
  zero_results_yield_zero_dividend 18 "hkDefault" (fun _ => some [("other", 3)])
    (some 5) "acctA"
    (by
      intro rows hr kv hkv
      cases hr
      simp at hkv
      subst hkv
      decide)

/-- C9: evaluation of get_tao_dividends at absent parameters. Lines 123-124
of src/blockchain/client.py replace an absent netuid and hotkey with the
configured defaults, so a query with no topic scans only the default netuid
(first conjunct: rows exist on every netuid yet a zero record for the
default hotkey is returned; second conjunct: data on netuid 2 is ignored
when netuid is absent), even though the all-topics branch (range 1..20) and
the all-accounts filter exist in the function and the endpoint documents
that absence means all netuids / all hotkeys. -/
theorem absent_params_replaced_by_defaults :
    clientGetTaoDividends 18 "hkDefault" demoChain none none =
      .one ⟨18, "hkDefault", 0, false, false, none⟩ ∧
    clientGetTaoDividends 18 "hkDefault" demoChain2 none (some "acctA") =
      .one ⟨18, "acctA", 0, false, false, none⟩ ∧
    clientGetTaoDividends 18 "hkDefault" demoChain2 (some 2) (some "acctA") =
      .one ⟨2, "acctA", 5, false, false, none⟩ := by
  refine ⟨?_, ?_, ?_⟩ <;> rfl

theorem parseScore_bounds (completion : String) :
    -100 ≤ parseScoreCompletion completion ∧
      parseScoreCompletion completion ≤ 100 := by
  cases h : pyInt completion with
  | none => simp [parseScoreCompletion, h]
  | some n =>
      simp only [parseScoreCompletion, h]
      exact ⟨le_max_left _ _, max_le (by norm_num) (min_le_left _ _)⟩

/-- C4: the score produced by the scoring step is clamped to [-100, 100],
non-numeric scorer output is treated as score 0, the decision is stake for
positive, unstake for negative and none for zero, and a zero score yields
zero stake/unstake execution calls in the workflow. -/
theorem sentiment_clamp_and_decision (completion : String)
    (tws : List Tweet) (htws : tws ≠ []) (nu : Int)
    (addStake : Except String Bool) (uenv : UnstakeEnv) (dh : String)
    (dn : Int) (netuid : Option Int) :
    ∃ sr : SentimentResult,
      analyzeSentiment tws nu (.ok completion) = .ok sr ∧
      sr.score = parseScoreCompletion completion ∧
      -100 ≤ sr.score ∧ sr.score ≤ 100 ∧
      (pyInt completion = none → sr.score = 0) ∧
      (0 < sr.score → sr.operation_type = "stake") ∧
      (sr.score < 0 → sr.operation_type = "unstake") ∧
      (sr.score = 0 → sr.operation_type = "none" ∧
        (processSentimentAndStake (.ok tws) (.ok completion) addStake uenv
          dh dn netuid).2 = noTrade) := by
  have hne : tws.isEmpty = false := by
    cases tws with
    | nil => exact absurd rfl htws
    | cons a l => rfl
  refine ⟨⟨nu, parseScoreCompletion completion, tws.length,
    decideOp (parseScoreCompletion completion),
    suggestedAmount (parseScoreCompletion completion)⟩,
    ?_, rfl, (parseScore_bounds completion).1,
    (parseScore_bounds completion).2, ?_, ?_, ?_, ?_⟩
  · simp [analyzeSentiment, hne]
  · intro h0
    simp [parseScoreCompletion, h0]
  · intro hpos
    simp only [decideOp, if_pos hpos]
  · intro hneg
    have hneg' : parseScoreCompletion completion < 0 := hneg
    have hnp : ¬ (0 < parseScoreCompletion completion) := by omega
    show decideOp (parseScoreCompletion completion) = "unstake"
    simp only [decideOp, if_neg hnp, if_pos hneg']
  · intro hz
    have hz' : parseScoreCompletion completion = 0 := hz
    refine ⟨by simp [decideOp, hz'], ?_⟩
    simp [processSentimentAndStake, hne, analyzeSentiment, decideOp, hz']

/-- Witness for sentiment_clamp_and_decision at a non-numeric completion and
one tweet. -/
theorem sentiment_clamp_and_decision_witness :
    ([⟨"great subnet"⟩] : List Tweet) ≠ [] ∧
    (∃ sr : SentimentResult,
      analyzeSentiment [⟨"great subnet"⟩] 18 (.ok "mostly positive") =
        .ok sr ∧
      sr.score = parseScoreCompletion "mostly positive" ∧
      -100 ≤ sr.score ∧ sr.score ≤ 100 ∧
      (pyInt "mostly positive" = none → sr.score = 0) ∧
      (0 < sr.score → sr.operation_type = "stake") ∧
      (sr.score < 0 → sr.operation_type = "unstake") ∧
      (sr.score = 0 → sr.operation_type = "none" ∧
        (processSentimentAndStake (.ok [⟨"great subnet"⟩])
          (.ok "mostly positive") (.ok true) demoUEnv "hk" 18
          (some 18)).2 = noTrade)) :=
  ⟨by simp,
   sentiment_clamp_and_decision "mostly positive" [⟨"great subnet"⟩]
     (by simp) 18 (.ok true) demoUEnv "hk" 18 (some 18)⟩

/-- C5 counterexample: a duplicate-submission style fault raised by the
ledger ("Transaction is already imported") is recorded by both stake and
unstake with success false — there is no success-with-note path. -/
theorem duplicate_fault_recorded_as_failure_cex :
    (stakeCore 1 none (some 18) "hk"
      (.error "Transaction is already imported")).success = false ∧
    (unstakeCore 1 none (some 18) "hk"
      ⟨.ok (fun x => x), .ok (some 1000),
       .error "Transaction is already imported"⟩).success = false := by
  constructor
  · rfl
  · simp only [unstakeCore, failedOp]
    norm_num

/-- C5 amended: every raised fault from the stake or unstake extrinsic call
— duplicate-submission rejections included — is caught by the generic
handlers of src/blockchain/client.py lines 268-281 and 419-432 and recorded
with success false and the fault message as error, never as a
success-with-note. -/
theorem raised_fault_recorded_as_failure (amount : Rat)
    (hotkey : Option String) (netuid : Option Int) (dh : String)
    (e : String) (conv : Rat → Rat) (current : Rat) (uenv : UnstakeEnv)
    (h1 : uenv.taoToAlpha = .ok conv) (h2 : ¬ conv amount < 1 / 1000)
    (h3 : uenv.stakeInfo = .ok (some current))
    (h4 : ¬ current < conv amount)
    (h5 : uenv.unstakeCall = .error e) :
    (stakeCore amount hotkey netuid dh (.error e)).success = false ∧
    (stakeCore amount hotkey netuid dh (.error e)).error = some e ∧
    (unstakeCore amount hotkey netuid dh uenv).success = false ∧
    (unstakeCore amount hotkey netuid dh uenv).error = some e := by
  refine ⟨rfl, rfl, ?_, ?_⟩ <;>
  · simp only [unstakeCore, h1, h3, h5, failedOp]
    rw [if_neg h2, if_neg h4]

/-- Witness for raised_fault_recorded_as_failure at a concrete
duplicate-submission fault. -/
theorem raised_fault_recorded_as_failure_witness :
    ((⟨.ok (fun x => x), .ok (some 1000),
       .error "Transaction is already imported"⟩ :
        UnstakeEnv).taoToAlpha = .ok (fun x => x)) ∧
    ¬ ((fun x : Rat => x) 1 < 1 / 1000) ∧
    ((stakeCore 1 none (some 18) "hk"
      (.error "Transaction is already imported")).success = false ∧
    (stakeCore 1 none (some 18) "hk"
      (.error "Transaction is already imported")).error =
        some "Transaction is already imported" ∧
    (unstakeCore 1 none (some 18) "hk"
      ⟨.ok (fun x => x), .ok (some 1000),
       .error "Transaction is already imported"⟩).success = false ∧
    (unstakeCore 1 none (some 18) "hk"
      ⟨.ok (fun x => x), .ok (some 1000),
       .error "Transaction is already imported"⟩).error =
        some "Transaction is already imported") :=
  ⟨rfl, by norm_num,
   raised_fault_recorded_as_failure 1 none (some 18) "hk"
     "Transaction is already imported" (fun x => x) 1000
     ⟨.ok (fun x => x), .ok (some 1000),
      .error "Transaction is already imported"⟩
     rfl (by norm_num) rfl (by norm_num) rfl⟩

/-- C6 counterexample: a fault at fetching_signal does not degrade to the
neutral completed decision — the workflow resolves to a status "failed"
result carrying no sentiment score at all. -/
theorem signal_fault_not_neutral_cex :
    (processSentimentAndStake
      (.error "Failed to search tweets: 502 - bad gateway") (.ok "0")
      (.ok true) demoUEnv "hk" 18 (some 18)).1.status ≠ "completed" ∧
    (processSentimentAndStake
      (.error "Failed to search tweets: 502 - bad gateway") (.ok "0")
      (.ok true) demoUEnv "hk" 18 (some 18)).1.sentiment_score ≠ some 0 := by
  constructor
  · decide
  · decide

/-- C6 amended: an unrecoverable fault at fetching_signal or scoring is
caught and resolves the workflow to a status "failed" WorkflowResult value
with success false and zero trade activity — it never raises into its
scheduler, but it does not degrade to a neutral completed decision. -/
theorem signal_fault_yields_failed_result (e : String) (tws : List Tweet)
    (htws : tws ≠ []) (scoreResp : Except String String)
    (addStake : Except String Bool) (uenv : UnstakeEnv) (dh : String)
    (dn : Int) (netuid : Option Int) :
    processSentimentAndStake (.error e) scoreResp addStake uenv dh dn
        netuid =
      ({ status := "failed", message := "Error in sentiment analysis: " ++ e,
         sentiment_score := none, operation := none, amount := none,
         success := false }, noTrade) ∧
    processSentimentAndStake (.ok tws) (.error e) addStake uenv dh dn
        netuid =
      ({ status := "failed", message := "Error in sentiment analysis: " ++ e,
         sentiment_score := none, operation := none, amount := none,
         success := false }, noTrade) := by
  have hne : tws.isEmpty = false := by
    cases tws with
    | nil => exact absurd rfl htws
    | cons a l => rfl
  exact ⟨rfl, by simp [processSentimentAndStake, hne, analyzeSentiment]⟩

/-- Witness for signal_fault_yields_failed_result at a concrete fault. -/
theorem signal_fault_yields_failed_result_witness :
    ([⟨"great subnet"⟩] : List Tweet) ≠ [] ∧
    (processSentimentAndStake (.error "connection refused") (.ok "0")
        (.ok true) demoUEnv "hk" 18 (some 18) =
      ({ status := "failed",
         message := "Error in sentiment analysis: " ++ "connection refused",
         sentiment_score := none, operation := none, amount := none,
         success := false }, noTrade) ∧
    processSentimentAndStake (.ok [⟨"great subnet"⟩])
        (.error "connection refused") (.ok true) demoUEnv "hk" 18
        (some 18) =
      ({ status := "failed",
         message := "Error in sentiment analysis: " ++ "connection refused",
         sentiment_score := none, operation := none, amount := none,
         success := false }, noTrade)) :=
  ⟨by simp,
   signal_fault_yields_failed_result "connection refused" [⟨"great subnet"⟩]
     (by simp) (.ok "0") (.ok true) demoUEnv "hk" 18 (some 18)⟩

/-- C8 amended: a workflow run that finds zero social posts completes with
the neutral outcome — score 0, operation none, success true — makes zero
stake/unstake calls and writes zero StakeTransaction history rows: the
zero-posts branch of src/tasks/blockchain_tasks.py lines 62-75 returns
before any recording. -/
theorem zero_posts_neutral_completion (scoreResp : Except String String)
    (addStake : Except String Bool) (uenv : UnstakeEnv) (dh : String)
    (dn : Int) (netuid : Option Int) :
    processSentimentAndStake (.ok []) scoreResp addStake uenv dh dn netuid =
      ({ status := "completed",
         message := "No tweets found for sentiment analysis",
         sentiment_score := some 0, operation := some "none",
         amount := some 0, success := true }, noTrade) := rfl

/-- C8 counterexample: at a concrete zero-posts run the workflow writes zero
history rows, not exactly one record with score 0. -/
theorem zero_posts_no_history_record_cex :
    (processSentimentAndStake (.ok []) (.ok "0") (.ok true) demoUEnv "hk" 18
      (some 18)).2.txRecords = 0 ∧
    (processSentimentAndStake (.ok []) (.ok "0") (.ok true) demoUEnv "hk" 18
      (some 18)).1.status = "completed" := ⟨rfl, rfl⟩

theorem schedReach (n : Nat) :
    Relation.ReflTransGen SchedStep initSched
      ⟨MAX_CONCURRENT_SENTIMENT_TASKS, n, 0⟩ := by
  induction n with
  | zero => exact Relation.ReflTransGen.refl
  | succ k ih =>
      exact Relation.ReflTransGen.tail ih
        (SchedStep.dispatchStep _ _ _ (by decide))

/-- C7 counterexample: starting from the start state, 21 successive trigger
dispatches with no workflow completion reach a state with 21 workflow
instances in flight and zero triggers shed — each dispatch releases its
permit when the dispatch block exits, so the semaphore never reports an
excess trigger as not-scheduled and does not bound the number of in-flight
workflow instances. -/
theorem inflight_bound_unenforced_cex :
    Relation.ReflTransGen SchedStep initSched
      ⟨MAX_CONCURRENT_SENTIMENT_TASKS, 21, 0⟩ ∧
    MAX_CONCURRENT_SENTIMENT_TASKS < 21 :=
  ⟨schedReach 21, by decide⟩

/-- C7 amended: the semaphore bounds only the dispatch section. When it is
locked (zero permits) at trigger time, the trigger is reported as
not-scheduled — stake_tx_triggered is false on the response — while the
dividend data served is unchanged and no dispatch is issued; the permit
count after the branch equals the count before it. -/
theorem locked_semaphore_sheds_trigger (r : DividendResult)
    (c : CeleryOutcome) (p : Nat) (hp : p = 0) :
    (applyTradeBranch r p c).response = some (setTriggered r false) ∧
    (applyTradeBranch r p c).dispatched = 0 ∧
    (applyTradeBranch r p c).semAfter = p ∧
    resultTriples (setTriggered r false) = resultTriples r ∧
    resultTriggeredFlag (setTriggered r false) = false := by
  subst hp
  refine ⟨rfl, rfl, rfl, ?_, ?_⟩
  · cases r with
    | single d => rfl
    | batch b =>
        simp [setTriggered, resultTriples, dividendTriple, List.map_map]
  · cases r <;> rfl

/-- Witness for locked_semaphore_sheds_trigger at a locked semaphore and a
concrete single-record response. -/
theorem locked_semaphore_sheds_trigger_witness :
    (0 : Nat) = 0 ∧
    ((applyTradeBranch (.single ⟨18, "acctA", 1000, true, false, none⟩) 0
        .ok).response =
      some (setTriggered (.single ⟨18, "acctA", 1000, true, false, none⟩)
        false) ∧
    (applyTradeBranch (.single ⟨18, "acctA", 1000, true, false, none⟩) 0
        .ok).dispatched = 0 ∧
    (applyTradeBranch (.single ⟨18, "acctA", 1000, true, false, none⟩) 0
        .ok).semAfter = 0 ∧
    resultTriples (setTriggered
      (.single ⟨18, "acctA", 1000, true, false, none⟩) false) =
      resultTriples (.single ⟨18, "acctA", 1000, true, false, none⟩) ∧
    resultTriggeredFlag (setTriggered
      (.single ⟨18, "acctA", 1000, true, false, none⟩) false) = false) :=
  ⟨rfl, locked_semaphore_sheds_trigger
    (.single ⟨18, "acctA", 1000, true, false, none⟩) .ok 0 rfl⟩
